import Mathlib

/-!
Verification of the session orchestrator in src/let_them_cook.py.

The Python module is shallowly embedded: JSON values decoded by json.loads
become the inductive type `Json`; Python dict/iteration/str-join operations
that can raise become `Except PyError` computations; the decision helpers
(`should_continue`, `should_chime_in`, `GeminiClient.analyze`), the transcript
parser (`parse_session_line`), the drive-mode loop, the watch-mode handler,
the tailing cursor and the subprocess command construction are each embedded
as executable Lean definitions that mirror the source line by line.
-/

namespace LetThemCookSpec

/-- Result of json.loads on one transcript line: the usual JSON value grammar.
Numbers are modelled as integers; none of the verified code paths inspects a
numeric value, only the shape of the containing structure. -/
inductive Json where
  | null
  | bool (b : Bool)
  | num (n : Int)
  | str (s : String)
  | arr (elems : List Json)
  | obj (fields : List (String × Json))

/-- Python exceptions that the embedded code can raise and that are NOT
json.JSONDecodeError: calling .get on a non-dict raises AttributeError,
iterating a non-iterable or joining non-strings raises TypeError. -/
inductive PyError where
  | attributeError
  | typeError

/-- One entry of Message.tool_calls in let_them_cook.py (lines 153-156):
a dict with the keys "name" and "input". -/
structure ToolCall where
  name : Json
  input : Json

/-- The Message dataclass (src/let_them_cook.py lines 98-103).  `content` is
whatever Python value was extracted, hence `Json`; `tool_calls` is None or a
non-empty list exactly as the source produces it. -/
structure Message where
  role : String
  content : Json
  timestamp : Json
  tool_calls : Option (List ToolCall)

/-- First-match association lookup, the model of Python dict access for the
dicts produced by json.loads (whose keys are unique). -/
def lookupField : List (String × Json) → String → Option Json
  | [], _ => none
  | (k, v) :: rest, key => if k = key then some v else lookupField rest key

/-- Python `o.get(key, dflt)`: succeeds on dicts, raises AttributeError on
every other value (list, str, int, float, bool, None). -/
def pyGet (o : Json) (key : String) (dflt : Json) : Except PyError Json :=
  match o with
  | Json.obj fields => Except.ok ((lookupField fields key).getD dflt)
  | _ => Except.error PyError.attributeError

/-- Python `for block in content_blocks`: lists iterate their elements,
strings iterate their characters (as 1-char strings), dicts iterate their
keys; every other value raises TypeError. -/
def pyIterBlocks : Json → Except PyError (List Json)
  | Json.arr elems => Except.ok elems
  | Json.str s => Except.ok (s.data.map (fun c => Json.str (String.singleton c)))
  | Json.obj fields => Except.ok (fields.map (fun kv => Json.str kv.1))
  | _ => Except.error PyError.typeError

/-- Extracts the underlying strings of a list of Json values, or `none` if
any element is not a string. -/
def strValues : List Json → Option (List String)
  | [] => some []
  | Json.str s :: rest => (strValues rest).map (fun tail => s :: tail)
  | _ :: _ => none

/-- Python `sep.join(parts)`: concatenates when every part is a str, raises
TypeError otherwise. -/
def pyJoin (sep : String) (parts : List Json) : Except PyError String :=
  match strValues parts with
  | some parts0 => Except.ok (String.intercalate sep parts0)
  | none => Except.error PyError.typeError

/-- The block-scanning loop of parse_session_line (lines 148-156): walks the
assistant record's content blocks in order, collecting the "text" values of
text-typed dict blocks and the name/input pairs of tool_use dict blocks.
Non-dict blocks and dict blocks of any other type are skipped. -/
def collectBlocks : List Json → List Json × List ToolCall
  | [] => ([], [])
  | b :: rest =>
    let acc := collectBlocks rest
    match b with
    | Json.obj fields =>
      match (lookupField fields "type").getD Json.null with
      | Json.str t =>
        if t = "text" then
          (((lookupField fields "text").getD (Json.str "")) :: acc.1, acc.2)
        else if t = "tool_use" then
          (acc.1,
            ToolCall.mk ((lookupField fields "name").getD (Json.str ""))
              ((lookupField fields "input").getD (Json.obj [])) :: acc.2)
        else acc
      | _ => acc
    | _ => acc

/-- parse_session_line (src/let_them_cook.py lines 127-168).  The argument is
the outcome of json.loads on the stripped line: `none` when decoding raised
json.JSONDecodeError (which the source catches, returning None), `some v`
when the line decoded to the JSON value `v`.  Every other exception (the
AttributeError of `.get` on a non-dict, the TypeError of iterating or joining
ill-typed values) is NOT caught by the source and surfaces as `Except.error`. -/
def parse_session_line (decoded : Option Json) : Except PyError (Option Message) :=
  match decoded with
  | none => Except.ok none
  | some data =>
    match pyGet data "type" Json.null with
    | Except.error e => Except.error e
    | Except.ok msgType =>
      match msgType with
      | Json.str t =>
        if t = "user" then
          match pyGet data "message" (Json.obj []) with
          | Except.error e => Except.error e
          | Except.ok msg =>
            match pyGet msg "content" (Json.str "") with
            | Except.error e => Except.error e
            | Except.ok content =>
              match pyGet data "timestamp" (Json.str "") with
              | Except.error e => Except.error e
              | Except.ok ts => Except.ok (some (Message.mk "user" content ts none))
        else if t = "assistant" then
          match pyGet data "message" (Json.obj []) with
          | Except.error e => Except.error e
          | Except.ok msg =>
            match pyGet msg "content" (Json.arr []) with
            | Except.error e => Except.error e
            | Except.ok rawBlocks =>
              match pyIterBlocks rawBlocks with
              | Except.error e => Except.error e
              | Except.ok blocks =>
                let collected := collectBlocks blocks
                match pyJoin "\n" collected.1 with
                | Except.error e => Except.error e
                | Except.ok text =>
                  match pyGet data "timestamp" (Json.str "") with
                  | Except.error e => Except.error e
                  | Except.ok ts =>
                    Except.ok (some (Message.mk "assistant" (Json.str text) ts
                      (if collected.2.isEmpty then none else some collected.2)))
        else Except.ok none
      | _ => Except.ok none

/-- Python str.strip() on the character list of a string: remove leading and
trailing whitespace.  (Python also strips a few rarer Unicode space
characters; the predicate `Char.isWhitespace` covers the ones the verified
properties depend on, and every lemma below is proved for an arbitrary
predicate anyway.) -/
def pyStripList (l : List Char) : List Char :=
  List.rdropWhile Char.isWhitespace (List.dropWhile Char.isWhitespace l)

/-- Python str.strip(). -/
def pyStrip (s : String) : String :=
  String.mk (pyStripList s.data)

/-- Python substring membership over character lists: `needle` occurs
contiguously somewhere in the haystack. -/
def containsSeq (needle : List Char) : List Char → Bool
  | [] => needle.isEmpty
  | c :: rest => needle.isPrefixOf (c :: rest) || containsSeq needle rest

/-- Python `needle in hay` on strings. -/
def pyIn (needle hay : String) : Bool :=
  containsSeq needle.data hay.data

/-- GeminiClient.analyze (src/let_them_cook.py lines 80-91).  `available`
mirrors self.available (False when no API key or import failure); `remote`
is the generate_content call together with the .text accessor, which either
returns the response text or raises some exception of type `ε`.  When the
client is unavailable the call returns "" at once; when the remote call
raises, the exception is caught and "" is returned; otherwise the stripped
response text is returned. -/
def analyze {ε : Type} (available : Bool) (remote : String → Nat → Except ε String)
    (prompt : String) (maxTokens : Nat) : String :=
  if available then
    match remote prompt maxTokens with
    | Except.error _ => ""
    | Except.ok text => pyStrip text
  else ""

/-- The sentinel test of should_continue (lines 419-424): given the text the
advisory client returned, yield no instruction when "[DONE]" occurs anywhere
in it or it is empty, otherwise relay the stripped text. -/
def continueDecision (response : String) : Option String :=
  if pyIn "[DONE]" response || response == "" then none
  else some (pyStrip response)

/-- The sentinel test of should_chime_in (lines 471-476): yield no
instruction when "[SILENT]" occurs anywhere in the returned text or it is
empty, otherwise relay the stripped text. -/
def chimeDecision (response : String) : Option String :=
  if pyIn "[SILENT]" response || response == "" then none
  else some (pyStrip response)

/-- LetThemCook.should_continue (lines 374-424).  The prompt construction
from task and conversation is abstracted into the `prompt` argument; the
decision structure (unavailable client short-circuits to None, then the
sentinel test on the analyze result) is modelled exactly. -/
def should_continue {ε : Type} (available : Bool)
    (remote : String → Nat → Except ε String) (prompt : String) : Option String :=
  if available then continueDecision (analyze available remote prompt 500)
  else none

/-- LetThemCook.should_chime_in (lines 426-476).  Passive mode or an
unavailable client short-circuits to None; otherwise the sentinel test runs
on the analyze result. -/
def should_chime_in {ε : Type} (passive available : Bool)
    (remote : String → Nat → Except ε String) (prompt : String) : Option String :=
  if passive || !available then none
  else chimeDecision (analyze available remote prompt 400)

/-! Helper lemmas: str.strip is idempotent. -/

theorem dropWhile_take_fixed {α : Type} (p : α → Bool) (l : List α)
    (h : l.dropWhile p = l) (n : Nat) : (l.take n).dropWhile p = l.take n := by
  cases l with
  | nil => simp
  | cons c rest =>
    have hc : ¬ p c = true := by
      have h0 := List.dropWhile_eq_self_iff.mp h
      simpa using h0 (by simp)
    cases n with
    | zero => simp
    | succ k => simp [List.take_succ_cons, List.dropWhile_cons, hc]

theorem pyStripList_fixed (l : List Char) : pyStripList (pyStripList l) = pyStripList l := by
  unfold pyStripList
  set p := Char.isWhitespace with hp
  set m := List.dropWhile p l with hm
  have h1 : List.dropWhile p m = m := by
    rw [hm]; exact List.dropWhile_idempotent p l
  have htake := List.prefix_iff_eq_take.mp (List.rdropWhile_prefix p m)
  have h3 : List.dropWhile p (List.rdropWhile p m) = List.rdropWhile p m := by
    have h4 := dropWhile_take_fixed p m h1 (List.rdropWhile p m).length
    rw [← htake] at h4
    exact h4
  rw [h3]
  exact List.rdropWhile_idempotent p m

theorem pyStrip_fixed (s : String) : pyStrip (pyStrip s) = pyStrip s := by
  show String.mk (pyStripList (String.mk (pyStripList s.data)).data) = String.mk (pyStripList s.data)
  exact congrArg String.mk (pyStripList_fixed s.data)

/-! The autonomous drive loop (run_drive_mode lines 505-528 and
continue_autonomous lines 678-700 share this structure: turn counter from 0,
`while self.max_turns == 0 or turn < self.max_turns`, consult
should_continue, fall back to interactive mode on a falsy result, otherwise
send the instruction and iterate). -/

/-- How one pass through the autonomous while-loop ends. -/
inductive DriveExit where
  | toInteractive
  | limitExit
  | outOfFuel

/-- True exactly on the exit taken when the while-condition fails: the
source then prints the turn count (run_drive_mode) or silently returns
(continue_autonomous); neither calls interactive_mode on this path. -/
def DriveExit.isLimit : DriveExit → Bool
  | DriveExit.limitExit => true
  | _ => false

/-- True exactly on the exit that invokes interactive_mode. -/
def DriveExit.isInteractive : DriveExit → Bool
  | DriveExit.toInteractive => true
  | _ => false

/-- Python truthiness of the value should_continue returned: None and the
empty string are falsy (`if not next_message`). -/
def truthyOpt : Option String → Bool
  | none => false
  | some s => !(s == "")

/-- The autonomous while-loop.  `advice t` is the value should_continue
returned on the iteration entered with turn counter `t` (the external
send_to_claude responses it is computed from are abstracted into this
oracle).  `fuel` bounds how many iterations are observed; a run that is
still looping when the fuel ends is reported as `outOfFuel`.  Returns the
follow-up instructions issued, in order, and how the loop ended. -/
def drive_loop (maxTurns : Nat) (advice : Nat → Option String) :
    Nat → Nat → List String × DriveExit
  | 0, _ => ([], DriveExit.outOfFuel)
  | fuel + 1, turn =>
    if maxTurns = 0 ∨ turn < maxTurns then
      match advice turn with
      | none => ([], DriveExit.toInteractive)
      | some s =>
        if s = "" then ([], DriveExit.toInteractive)
        else
          let rest := drive_loop maxTurns advice fuel (turn + 1)
          (s :: rest.1, rest.2)
    else ([], DriveExit.limitExit)

/-- run_drive_mode (lines 482-528) as a send trace: the initial task is sent
with continue_session=False (line 500), then every instruction issued by the
autonomous loop is sent through send_to_claude with its default
continue_session=True (line 521).  Each trace entry is (message sent,
continue_session flag used). -/
def run_drive_mode (maxTurns : Nat) (task : String) (advice : Nat → Option String)
    (fuel : Nat) : List (String × Bool) × DriveExit :=
  let loopResult := drive_loop maxTurns advice fuel 0
  ((task, false) :: loopResult.1.map (fun s => (s, true)), loopResult.2)

/-! Subprocess command construction. -/

/-- The argument list send_to_claude spawns (lines 263-277): the fixed
option set, then "--continue" exactly when continue_session is true, then
the message as the final positional argument.  The parameter
continue_session defaults to true in the source; the autonomous loops and
interactive_mode call send_to_claude without it and so use the default. -/
def send_to_claude_cmd (claudeBin model message : String)
    (continueSession : Bool) : List String :=
  [claudeBin, "-p", "--model", model, "--dangerously-skip-permissions",
      "--output-format", "stream-json", "--verbose"]
    ++ (if continueSession then ["--continue"] else []) ++ [message]

/-- The argument list send_chime spawns (lines 614-623): "--continue" is
always present. -/
def send_chime_cmd (claudeBin model message : String) : List String :=
  [claudeBin, "-p", "--model", model, "--dangerously-skip-permissions",
    "--continue", message]

/-- The command interactive_mode issues for direct user input (line 669):
send_to_claude with its default continue_session=True. -/
def interactive_send_cmd (claudeBin model userInput : String) : List String :=
  send_to_claude_cmd claudeBin model userInput true

/-! The watch-mode message handler. -/

/-- What handle_watch_message (lines 593-612) did with one parsed message. -/
inductive WatchAction where
  | printUser
  | assistantQuiet
  | assistantConsulted (decision : Option String)
  | ignored

/-- True exactly when the handler invoked should_chime_in. -/
def WatchAction.invokedChime : WatchAction → Bool
  | WatchAction.assistantConsulted _ => true
  | _ => false

/-- True exactly when the handler went on to invoke send_chime (the decision
was truthy). -/
def WatchAction.sentChime : WatchAction → Bool
  | WatchAction.assistantConsulted (some s) => !(s == "")
  | _ => false

/-- handle_watch_message (lines 593-612): user messages are printed; for
assistant messages the chime path (should_chime_in, and send_chime on a
truthy decision) runs only when the passive flag is clear. -/
def handle_watch_message {ε : Type} (passive available : Bool)
    (remote : String → Nat → Except ε String) (prompt : String)
    (msg : Message) : WatchAction :=
  if msg.role = "user" then WatchAction.printUser
  else if msg.role = "assistant" then
    if passive then WatchAction.assistantQuiet
    else WatchAction.assistantConsulted (should_chime_in passive available remote prompt)
  else WatchAction.ignored

/-! The tailing cursor of run_watch_mode (lines 561-589). -/

/-- One tailing cycle on a file whose current content is `file`: re-open,
seek to the stored offset, readlines, store f.tell().  Seeking past the end
is legal in Python and readlines then returns nothing with tell() still at
the seek position, so the new offset is `max pos file.length`; within the
file it is the end of file. -/
def tailCycle (file : List Char) (pos : Nat) : List Char × Nat :=
  (file.drop pos, max pos file.length)

/-- The stored byte offset (self.last_position) after `n` tailing cycles,
where `files m` is the transcript content seen by the cycle numbered `m`
(cycle 0 is the initial full read, which leaves the offset at `p0`). -/
def tailRun (files : Nat → List Char) (p0 : Nat) : Nat → Nat
  | 0 => p0
  | n + 1 => (tailCycle (files (n + 1)) (tailRun files p0 n)).2

/-! send_to_claude: final-response reconciliation and conversation update. -/

/-- The fallback text of line 340. -/
def noTextPlaceholder : String := "[no text response]"

/-- Lines 340-358 of send_to_claude: the accumulated stream text
`full_response` is stripped (or replaced by the placeholder when the stream
produced no text), then, when the session file's last line parses to an
assistant message whose content is longer than that baseline, the transcript
copy wins.  `sessionLast` is `none` when no session file was found (or it
had no lines); a parse outcome of `Except.error` models the swallowed
exception of the bare `except: pass`. -/
def reconcileResponse (full_response : String)
    (sessionLast : Option (Except PyError (Option Message))) : String :=
  let response := if full_response = "" then noTextPlaceholder else pyStrip full_response
  match sessionLast with
  | some (Except.ok (some m)) =>
    if m.role = "assistant" then
      match m.content with
      | Json.str s => if response.length < s.length then s else response
      | _ => response
    else response
  | _ => response

/-- Lines 360-366 of send_to_claude: append the sent instruction as a user
message and the final response as an assistant message to self.conversation.
`t1` and `t2` are the two datetime.now() timestamps. -/
def send_to_claude_append (conv : List Message)
    (instruction response t1 t2 : String) : List Message :=
  conv ++ [Message.mk "user" (Json.str instruction) (Json.str t1) none,
    Message.mk "assistant" (Json.str response) (Json.str t2) none]

/-- The effect of one completed send_to_claude call on self.conversation.
When asyncio.create_subprocess_exec raises, the call returns the error
string at line 288 before ever reaching the appends at lines 360-366, so
the conversation is left untouched; when the spawn succeeds (`spawnOk`),
the user/assistant pair is appended. -/
def send_to_claude_conv (conv : List Message) (spawnOk : Bool)
    (instruction response t1 t2 : String) : List Message :=
  if spawnOk then send_to_claude_append conv instruction response t1 t2
  else conv

/-- The conversation after a sequence of completed send_to_claude calls,
each described by (spawn succeeded, instruction, response, timestamp,
timestamp).  In drive mode send_to_claude is the only operation that writes
self.conversation. -/
def driveConversation (conv : List Message) :
    List (Bool × String × String × String × String) → List Message
  | [] => conv
  | (ok, i, r, t1, t2) :: rest =>
    driveConversation (send_to_claude_conv conv ok i r t1 t2) rest

/-- Checks that a conversation is a sequence of user/assistant pairs. -/
def alternatesUA : List Message → Bool
  | [] => true
  | [_] => false
  | u :: a :: rest => u.role == "user" && a.role == "assistant" && alternatesUA rest

/-! Shape classifiers and, for the refinement statements, spec-side
descriptions of the assistant-block scan ("text-typed blocks are newline
joined in order; tool-invocation blocks are collected in order"). -/

/-- True exactly on JSON objects (Python dicts). -/
def Json.isObj : Json → Bool
  | Json.obj _ => true
  | _ => false

/-- True when an object record's "type" entry is one of the two recognized
record kinds. -/
def recognizedType (fields : List (String × Json)) : Bool :=
  match (lookupField fields "type").getD Json.null with
  | Json.str t => t == "user" || t == "assistant"
  | _ => false

/-- The "text" value a text-typed dict block contributes, with the source's
default, or `none` for every block the text scan skips. -/
def blockTextJson (b : Json) : Option Json :=
  match b with
  | Json.obj fields =>
    match (lookupField fields "type").getD Json.null with
    | Json.str t =>
      if t = "text" then some ((lookupField fields "text").getD (Json.str ""))
      else none
    | _ => none
  | _ => none

/-- The tool call a tool_use dict block contributes, or `none` for every
block the tool scan skips. -/
def blockToolJson (b : Json) : Option ToolCall :=
  match b with
  | Json.obj fields =>
    match (lookupField fields "type").getD Json.null with
    | Json.str t =>
      if t = "text" then none
      else if t = "tool_use" then
        some (ToolCall.mk ((lookupField fields "name").getD (Json.str ""))
          ((lookupField fields "input").getD (Json.obj [])))
      else none
    | _ => none
  | _ => none

/-- Modelled from the spec: the texts of the text-typed blocks, in order
("text-typed blocks are concatenated (newline-joined) into text"). -/
def specTexts (blocks : List Json) : List String :=
  blocks.filterMap (fun b =>
    match blockTextJson b with
    | some (Json.str s) => some s
    | _ => none)

/-- Modelled from the spec: the tool invocations of the tool-typed blocks,
in order ("tool-invocation blocks are collected in order into
tool_invocations, each capturing a name and an argument mapping"). -/
def specToolCalls (blocks : List Json) : List ToolCall :=
  blocks.filterMap blockToolJson

/-- A block is well-typed for the text scan when, if it is a text-typed dict
block at all, its "text" value (after the source's default) is a string.
Real transcript records always satisfy this. -/
def textFieldIsString (b : Json) : Bool :=
  match blockTextJson b with
  | some (Json.str _) => true
  | some _ => false
  | none => true

/-- An assistant transcript record with the given content blocks and
timestamp. -/
def mkAssistantRecord (blocks : List Json) (ts : Json) : Json :=
  Json.obj [("type", Json.str "assistant"),
    ("message", Json.obj [("content", Json.arr blocks)]),
    ("timestamp", ts)]

/-! Claim C1. -/

/-- Claim C1 as stated is false: parse_session_line does propagate an
exception for some inputs.  The source catches only json.JSONDecodeError, so
a line that decodes to valid JSON that is not an object — here the line
"[]", which decodes to an empty array — reaches `data.get("type")` and
raises an uncaught AttributeError. -/
theorem parse_session_line_raises_counterexample :
    parse_session_line (some (Json.arr [])) = Except.error PyError.attributeError := rfl

/-- Claim C1 (amended): parse_session_line returns no message without
raising for every line that fails to decode as JSON, and for every line that
decodes to a JSON object of unrecognized kind; but a line decoding to valid
non-object JSON raises an uncaught AttributeError. -/
theorem parse_session_line_error_containment (d : Option Json) :
    (d = none → parse_session_line d = Except.ok none) ∧
    (∀ v, d = some v → Json.isObj v = false →
      parse_session_line d = Except.error PyError.attributeError) ∧
    (∀ fields, d = some (Json.obj fields) → recognizedType fields = false →
      parse_session_line d = Except.ok none) := by
  refine ⟨?_, ?_, ?_⟩
  · intro h; subst h; rfl
  · intro v hv hobj
    subst hv
    cases v with
    | obj fields => simp [Json.isObj] at hobj
    | null => rfl
    | bool b => rfl
    | num n => rfl
    | str s => rfl
    | arr elems => rfl
  · intro fields hf hrec
    subst hf
    unfold recognizedType at hrec
    simp only [parse_session_line, pyGet]
    cases hx : (lookupField fields "type").getD Json.null with
    | str t =>
      rw [hx] at hrec
      simp only [Bool.or_eq_false_iff, beq_eq_false_iff_ne, ne_eq] at hrec
      simp [hrec.1, hrec.2]
    | null => rfl
    | bool b => rfl
    | num n => rfl
    | arr elems => rfl
    | obj fs => rfl

/-- Witness for C1's amended theorem at a concrete unrecognized record, the
line consisting of the object with "type": "summary". -/
theorem parse_session_line_error_containment_witness :
    recognizedType [("type", Json.str "summary")] = false ∧
    parse_session_line (some (Json.obj [("type", Json.str "summary")])) = Except.ok none :=
  ⟨by decide,
    (parse_session_line_error_containment
      (some (Json.obj [("type", Json.str "summary")]))).2.2
      [("type", Json.str "summary")] rfl (by decide)⟩

/-! Claim C2. -/

theorem drive_loop_sends_bound (maxTurns : Nat) (advice : Nat → Option String)
    (hN : 1 ≤ maxTurns) :
    ∀ fuel turn, turn ≤ maxTurns →
      (drive_loop maxTurns advice fuel turn).1.length ≤ maxTurns - turn := by
  intro fuel
  induction fuel with
  | zero => intro turn _; simp [drive_loop]
  | succ k ih =>
    intro turn hturn
    by_cases hlt : turn < maxTurns
    · have hcond : maxTurns = 0 ∨ turn < maxTurns := Or.inr hlt
      simp only [drive_loop, if_pos hcond]
      cases hadv : advice turn with
      | none => simp
      | some s =>
        by_cases hs : s = ""
        · simp [hs]
        · have hr := ih (turn + 1) hlt
          simp only [if_neg hs, List.length_cons]
          omega
    · have hcond : ¬ (maxTurns = 0 ∨ turn < maxTurns) := by omega
      simp [drive_loop, hcond]

theorem drive_loop_zero_no_limit (advice : Nat → Option String) :
    ∀ fuel turn, ((drive_loop 0 advice fuel turn).2).isLimit = false := by
  intro fuel
  induction fuel with
  | zero => intro turn; rfl
  | succ k ih =>
    intro turn
    have hcond : (0 : Nat) = 0 ∨ turn < 0 := Or.inl rfl
    simp only [drive_loop, if_pos hcond]
    cases advice turn with
    | none => rfl
    | some s =>
      by_cases hs : s = ""
      · simp [hs, DriveExit.isLimit]
      · simp only [if_neg hs]
        exact ih (turn + 1)

theorem drive_loop_limit_reached (maxTurns : Nat) (advice : Nat → Option String)
    (hN : 1 ≤ maxTurns) (hadv : ∀ t, truthyOpt (advice t) = true) :
    ∀ fuel turn, turn ≤ maxTurns → maxTurns - turn < fuel →
      (drive_loop maxTurns advice fuel turn).2 = DriveExit.limitExit ∧
      (drive_loop maxTurns advice fuel turn).1.length = maxTurns - turn := by
  intro fuel
  induction fuel with
  | zero => intro turn h1 h2; omega
  | succ k ih =>
    intro turn h1 h2
    by_cases hlt : turn < maxTurns
    · have hcond : maxTurns = 0 ∨ turn < maxTurns := Or.inr hlt
      have htr := hadv turn
      cases hadvt : advice turn with
      | none => rw [hadvt] at htr; simp [truthyOpt] at htr
      | some s =>
        rw [hadvt] at htr
        have hs : ¬ s = "" := by simpa [truthyOpt] using htr
        have hrec := ih (turn + 1) hlt (by omega)
        simp only [drive_loop, if_pos hcond, hadvt, if_neg hs, List.length_cons]
        exact ⟨hrec.1, by omega⟩
    · have heq : turn = maxTurns := by omega
      have hne : ¬ maxTurns = 0 := by omega
      simp [drive_loop, heq, hne]

/-- Claim C2 as stated is false on its "forces a transition to interactive
mode" part: with limit 1 and an advisory oracle that always produces an
instruction, the loop issues its single allowed instruction and exits with
the limit-reached exit (the source prints the turn count and returns), which
is not the interactive-mode exit. -/
theorem turn_limit_counterexample :
    (drive_loop 1 (fun _ => some "go") 3 0).1 = ["go"] ∧
    ((drive_loop 1 (fun _ => some "go") 3 0).2).isInteractive = false ∧
    ((drive_loop 1 (fun _ => some "go") 3 0).2).isLimit = true :=
  ⟨rfl, rfl, rfl⟩

/-- Claim C2 (amended): in drive mode with a configured turn limit N >= 1
the autonomous loop issues at most N follow-up instructions; once the limit
is reached the loop exits via the limit path (without entering interactive
mode), having issued exactly N instructions when the advisory step produced
one every turn; with N = 0 the limit exit is never taken. -/
theorem drive_mode_turn_limit (maxTurns fuel : Nat) (advice : Nat → Option String)
    (hN : 1 ≤ maxTurns) :
    (drive_loop maxTurns advice fuel 0).1.length ≤ maxTurns ∧
    (maxTurns < fuel → (∀ t, truthyOpt (advice t) = true) →
      (drive_loop maxTurns advice fuel 0).2 = DriveExit.limitExit ∧
      (drive_loop maxTurns advice fuel 0).1.length = maxTurns) ∧
    ((drive_loop 0 advice fuel 0).2).isLimit = false := by
  refine ⟨?_, ?_, drive_loop_zero_no_limit advice fuel 0⟩
  · have hb := drive_loop_sends_bound maxTurns advice hN fuel 0 (by omega)
    simpa using hb
  · intro hf hadv
    have hl := drive_loop_limit_reached maxTurns advice hN hadv fuel 0 (by omega) (by omega)
    simpa using hl

/-- Witness for C2's amended theorem at limit 2 with an always-productive
advisory oracle and enough fuel. -/
theorem drive_mode_turn_limit_witness :
    (drive_loop 2 (fun _ => some "go") 4 0).2 = DriveExit.limitExit ∧
    (drive_loop 2 (fun _ => some "go") 4 0).1.length = 2 :=
  ⟨((drive_mode_turn_limit 2 4 (fun _ => some "go") (by decide)).2.1 (by decide)
      (fun t => by decide)).1,
    ((drive_mode_turn_limit 2 4 (fun _ => some "go") (by decide)).2.1 (by decide)
      (fun t => by decide)).2⟩

/-! Claim C3. -/

theorem pyStrip_empty : pyStrip "" = "" := rfl

/-- Claim C3: a continuation response containing "[DONE]" anywhere yields no
instruction, a chime-in response containing "[SILENT]" anywhere yields no
instruction, and any other non-empty response text is returned verbatim.
Verbatim return holds because every advisory response is a fixed point of
str.strip — the final conjunct shows analyze only ever returns stripped
text — and on stripped text the decision's own .strip() is the identity. -/
theorem sentinel_detection (r : String) :
    (pyIn "[DONE]" r = true → continueDecision r = none) ∧
    (pyIn "[SILENT]" r = true → chimeDecision r = none) ∧
    (pyIn "[DONE]" r = false → r ≠ "" → pyStrip r = r → continueDecision r = some r) ∧
    (pyIn "[SILENT]" r = false → r ≠ "" → pyStrip r = r → chimeDecision r = some r) ∧
    (∀ (ε : Type) (available : Bool) (remote : String → Nat → Except ε String)
      (prompt : String) (maxTokens : Nat),
      pyStrip (analyze available remote prompt maxTokens) =
        analyze available remote prompt maxTokens) := by
  refine ⟨?_, ?_, ?_, ?_, ?_⟩
  · intro h; simp [continueDecision, h]
  · intro h; simp [chimeDecision, h]
  · intro h1 h2 h3; simp [continueDecision, h1, h2, h3]
  · intro h1 h2 h3; simp [chimeDecision, h1, h2, h3]
  · intro ε available remote prompt maxTokens
    unfold analyze
    cases available with
    | false => exact pyStrip_empty
    | true =>
      cases remote prompt maxTokens with
      | error e => exact pyStrip_empty
      | ok t => exact pyStrip_fixed t

/-- Witness for C3 at a concrete sentinel-free, non-empty, stripped
response: it is relayed verbatim. -/
theorem sentinel_detection_witness :
    pyIn "[DONE]" "Add input validation" = false ∧
    ("Add input validation" : String) ≠ "" ∧
    pyStrip "Add input validation" = "Add input validation" ∧
    continueDecision "Add input validation" = some "Add input validation" :=
  ⟨by decide, by decide, by decide,
    (sentinel_detection "Add input validation").2.2.1 (by decide) (by decide) (by decide)⟩

/-! Claim C4. -/

/-- Claim C4: with no backing model configured, analyze returns "" for every
prompt and max-output value; when the remote call raises, the exception is
caught and "" is returned; and the downstream decision functions treat ""
exactly like the terminal/silence sentinels — no instruction. -/
theorem advisory_fail_open {ε : Type} (err : ε)
    (remote : String → Nat → Except ε String) (prompt : String) (maxTokens : Nat) :
    analyze false remote prompt maxTokens = "" ∧
    analyze true (fun _ _ => Except.error err) prompt maxTokens = "" ∧
    should_continue true (fun _ _ => Except.error err) prompt = none ∧
    should_chime_in false true (fun _ _ => Except.error err) prompt = none ∧
    continueDecision "" = none ∧
    chimeDecision "" = none ∧
    continueDecision "[DONE]" = none ∧
    chimeDecision "[SILENT]" = none :=
  ⟨rfl, rfl, rfl, rfl, rfl, rfl, by decide, by decide⟩

/-! Claim C5. -/

/-- Claim C5: across tailing cycles over a transcript under append-only
writes, the stored byte offset is monotonically non-decreasing, and after
every cycle it equals the length of the file content that cycle read — the
position f.tell() returned for that read of that same file (the initial
full read leaves the offset at the length of the content it consumed,
which `hp0` records). -/
theorem tailing_cursor_invariant (files : Nat → List Char) (p0 : Nat)
    (happend : ∀ m, ∃ growth, files m ++ growth = files (m + 1))
    (hp0 : p0 = (files 0).length) :
    ∀ n, tailRun files p0 n ≤ tailRun files p0 (n + 1) ∧
      tailRun files p0 n = (files n).length := by
  have key : ∀ k, tailRun files p0 k = (files k).length := by
    intro k
    induction k with
    | zero => exact hp0
    | succ j ih =>
      show (tailCycle (files (j + 1)) (tailRun files p0 j)).2 = (files (j + 1)).length
      obtain ⟨g, hg⟩ := happend j
      have hle : (files j).length ≤ (files (j + 1)).length := by
        rw [← hg]; simp
      simp only [tailCycle, ih]
      exact Nat.max_eq_right hle
  intro n
  refine ⟨?_, key n⟩
  rw [key n, key (n + 1)]
  obtain ⟨g, hg⟩ := happend n
  rw [← hg]; simp

/-- Witness for C5 on a constant two-byte transcript after one cycle. -/
theorem tailing_cursor_invariant_witness :
    tailRun (fun _ => ['o', 'k']) 2 1 ≤ tailRun (fun _ => ['o', 'k']) 2 2 ∧
    tailRun (fun _ => ['o', 'k']) 2 1 = ((fun _ : Nat => ['o', 'k']) 1).length :=
  tailing_cursor_invariant (fun _ => ['o', 'k']) 2 (fun m => ⟨[], by simp⟩) rfl 1

/-! Claim C6. -/

theorem collectBlocks_eq (blocks : List Json) :
    collectBlocks blocks = (blocks.filterMap blockTextJson, specToolCalls blocks) := by
  induction blocks with
  | nil => rfl
  | cons b rest ih =>
    simp only [collectBlocks, ih, specToolCalls, List.filterMap_cons]
    cases b with
    | obj fields =>
      simp only [blockTextJson, blockToolJson]
      cases hx : (lookupField fields "type").getD Json.null with
      | str t =>
        by_cases ht : t = "text"
        · simp [ht]
        · by_cases htu : t = "tool_use"
          · simp [ht, htu]
          · simp [ht, htu]
      | null => rfl
      | bool c => rfl
      | num n => rfl
      | arr elems => rfl
      | obj fs => rfl
    | null => rfl
    | bool c => rfl
    | num n => rfl
    | str s => rfl
    | arr elems => rfl

theorem strValues_specTexts (blocks : List Json)
    (h : blocks.all textFieldIsString = true) :
    strValues (blocks.filterMap blockTextJson) = some (specTexts blocks) := by
  induction blocks with
  | nil => rfl
  | cons b rest ih =>
    simp only [List.all_cons, Bool.and_eq_true] at h
    have hrest := ih h.2
    cases hx : blockTextJson b with
    | none => simpa [List.filterMap_cons, hx, specTexts] using hrest
    | some v =>
      cases v with
      | str s =>
        simp [List.filterMap_cons, hx, specTexts, strValues]
        simpa [specTexts] using hrest
      | null => have hb := h.1; unfold textFieldIsString at hb; rw [hx] at hb; simp at hb
      | bool c => have hb := h.1; unfold textFieldIsString at hb; rw [hx] at hb; simp at hb
      | num n => have hb := h.1; unfold textFieldIsString at hb; rw [hx] at hb; simp at hb
      | arr elems => have hb := h.1; unfold textFieldIsString at hb; rw [hx] at hb; simp at hb
      | obj fs => have hb := h.1; unfold textFieldIsString at hb; rw [hx] at hb; simp at hb

/-- Claim C6: for every assistant record whose text blocks carry string
text (as transcript records do), the parsed message's text is the
newline-join of its text-typed blocks in order, and its tool_calls field is
None exactly when no tool-invocation block occurs, otherwise the non-empty,
order-preserving list of (name, input) pairs.  The last two conjuncts
connect the tool list to block presence: it is empty when the record has no
tool blocks and non-empty when it has at least one. -/
theorem assistant_record_parsing (blocks : List Json) (ts : Json)
    (h : blocks.all textFieldIsString = true) :
    parse_session_line (some (mkAssistantRecord blocks ts)) =
      Except.ok (some (Message.mk "assistant"
        (Json.str (String.intercalate "\n" (specTexts blocks))) ts
        (if (specToolCalls blocks).isEmpty then none
         else some (specToolCalls blocks)))) ∧
    (blocks.all (fun b => (blockToolJson b).isNone) = true → specToolCalls blocks = []) ∧
    (blocks.any (fun b => (blockToolJson b).isSome) = true → specToolCalls blocks ≠ []) := by
  refine ⟨?_, ?_, ?_⟩
  · have hc := collectBlocks_eq blocks
    have hs := strValues_specTexts blocks h
    show (match pyJoin "\n" (collectBlocks blocks).1 with
      | Except.error e => Except.error e
      | Except.ok text =>
        Except.ok (some (Message.mk "assistant" (Json.str text) ts
          (if (collectBlocks blocks).2.isEmpty then none
           else some (collectBlocks blocks).2)))) =
      Except.ok (some (Message.mk "assistant"
        (Json.str (String.intercalate "\n" (specTexts blocks))) ts
        (if (specToolCalls blocks).isEmpty then none
         else some (specToolCalls blocks))))
    rw [hc]
    simp [pyJoin, hs]
  · intro h2
    show blocks.filterMap blockToolJson = []
    rw [List.filterMap_eq_nil_iff]
    intro a ha
    have ha2 := List.all_eq_true.mp h2 a ha
    simpa [Option.isNone_iff_eq_none] using ha2
  · intro h3 hnil
    obtain ⟨b, hb, hsome⟩ := List.any_eq_true.mp h3
    have hnil2 : blocks.filterMap blockToolJson = [] := hnil
    have hbnone := List.filterMap_eq_nil_iff.mp hnil2 b hb
    rw [hbnone] at hsome
    simp at hsome

/-- A concrete assistant record for the C6 witness: text "hello", a Bash
tool invocation, text "world". -/
def sampleBlocks : List Json :=
  [Json.obj [("type", Json.str "text"), ("text", Json.str "hello")],
    Json.obj [("type", Json.str "tool_use"), ("name", Json.str "Bash"),
      ("input", Json.obj [("command", Json.str "ls")])],
    Json.obj [("type", Json.str "text"), ("text", Json.str "world")]]

/-- Witness for C6 on `sampleBlocks`. -/
theorem assistant_record_parsing_witness :
    sampleBlocks.all textFieldIsString = true ∧
    parse_session_line (some (mkAssistantRecord sampleBlocks (Json.str "2025-01-01"))) =
      Except.ok (some (Message.mk "assistant"
        (Json.str (String.intercalate "\n" (specTexts sampleBlocks))) (Json.str "2025-01-01")
        (if (specToolCalls sampleBlocks).isEmpty then none
         else some (specToolCalls sampleBlocks)))) :=
  ⟨by decide, (assistant_record_parsing sampleBlocks (Json.str "2025-01-01") (by decide)).1⟩

/-! Claim C7. -/

/-- Claim C7: with the passive flag set, handle_watch_message never invokes
the chime path — should_chime_in is not consulted and send_chime is not
reached — for every message, whatever its role, content or tool calls; and
should_chime_in itself short-circuits to None when passive is set. -/
theorem passive_never_chimes {ε : Type} (available : Bool)
    (remote : String → Nat → Except ε String) (prompt : String) (msg : Message) :
    (handle_watch_message true available remote prompt msg).invokedChime = false ∧
    (handle_watch_message true available remote prompt msg).sentChime = false ∧
    should_chime_in true available remote prompt = none := by
  refine ⟨?_, ?_, rfl⟩ <;>
  · unfold handle_watch_message
    by_cases h1 : msg.role = "user"
    · simp [h1, WatchAction.invokedChime, WatchAction.sentChime]
    · by_cases h2 : msg.role = "assistant" <;>
        simp [h1, h2, WatchAction.invokedChime, WatchAction.sentChime]

/-! Claim C8. -/

/-- Claim C8 as stated is false: with an empty accumulated stream text and a
transcript whose last record is the assistant message "hi" — strictly
longer than the zero characters accumulated from the stream — the claim
says the transcript text is returned, but the source compares against (and
returns) the placeholder "[no text response]" instead. -/
theorem reconcile_counterexample :
    ("" : String).length < ("hi" : String).length ∧
    reconcileResponse ""
      (some (Except.ok (some (Message.mk "assistant" (Json.str "hi") (Json.str "t") none)))) =
      noTextPlaceholder ∧
    noTextPlaceholder ≠ "hi" :=
  ⟨by decide, rfl, by decide⟩

/-- Claim C8 (amended): the comparison baseline is the stripped stream text,
or the placeholder "[no text response]" when the stream accumulated nothing;
the transcript's last-line assistant content is returned exactly when it is
strictly longer than that baseline, and the baseline is returned otherwise —
also whenever there is no session file or the last line does not parse to
an assistant message. -/
theorem reconcile_longer_wins (full_response s : String) (ts : Json) :
    ((if full_response = "" then noTextPlaceholder else pyStrip full_response).length < s.length →
      reconcileResponse full_response
        (some (Except.ok (some (Message.mk "assistant" (Json.str s) ts none)))) = s) ∧
    (s.length ≤ (if full_response = "" then noTextPlaceholder else pyStrip full_response).length →
      reconcileResponse full_response
        (some (Except.ok (some (Message.mk "assistant" (Json.str s) ts none)))) =
        (if full_response = "" then noTextPlaceholder else pyStrip full_response)) ∧
    reconcileResponse full_response none =
      (if full_response = "" then noTextPlaceholder else pyStrip full_response) ∧
    reconcileResponse full_response (some (Except.error PyError.attributeError)) =
      (if full_response = "" then noTextPlaceholder else pyStrip full_response) := by
  refine ⟨?_, ?_, rfl, rfl⟩
  · intro h
    show (if (if full_response = "" then noTextPlaceholder else pyStrip full_response).length < s.length
      then s else (if full_response = "" then noTextPlaceholder else pyStrip full_response)) = s
    rw [if_pos h]
  · intro h
    show (if (if full_response = "" then noTextPlaceholder else pyStrip full_response).length < s.length
      then s else (if full_response = "" then noTextPlaceholder else pyStrip full_response)) = _
    rw [if_neg (by omega)]

/-- Witness for C8's amended theorem: a short stream text loses to a longer
transcript assistant message. -/
theorem reconcile_longer_wins_witness :
    (if ("ok" : String) = "" then noTextPlaceholder else pyStrip "ok").length <
      ("a longer answer" : String).length ∧
    reconcileResponse "ok"
      (some (Except.ok (some (Message.mk "assistant" (Json.str "a longer answer")
        (Json.str "t") none)))) = "a longer answer" :=
  ⟨by decide, (reconcile_longer_wins "ok" "a longer answer" (Json.str "t")).1 (by decide)⟩

/-! Claim C9. -/

theorem alternatesUA_append : ∀ xs ys : List Message,
    alternatesUA xs = true → alternatesUA ys = true → alternatesUA (xs ++ ys) = true
  | [], _, _, hy => hy
  | [_], _, hx, _ => by simp [alternatesUA] at hx
  | u :: a :: rest, ys, hx, hy => by
    simp only [alternatesUA, Bool.and_eq_true] at hx
    simp only [List.cons_append, alternatesUA, Bool.and_eq_true]
    obtain ⟨h12, h3⟩ := hx
    exact ⟨h12, alternatesUA_append rest ys h3 hy⟩

theorem pairMsgs_alternates (i r t1 t2 : String) :
    alternatesUA [Message.mk "user" (Json.str i) (Json.str t1) none,
      Message.mk "assistant" (Json.str r) (Json.str t2) none] = true := by
  simp [alternatesUA]

theorem driveConversation_growth : ∀ (sends : List (Bool × String × String × String × String))
    (conv : List Message), alternatesUA conv = true →
    (∃ rest0, conv ++ rest0 = driveConversation conv sends) ∧
    alternatesUA (driveConversation conv sends) = true
  | [], conv, h => ⟨⟨[], by simp [driveConversation]⟩, h⟩
  | (false, i, r, t1, t2) :: rest, conv, h => by
    have heq : driveConversation conv ((false, i, r, t1, t2) :: rest) =
      driveConversation conv rest := rfl
    rw [heq]
    exact driveConversation_growth rest conv h
  | (true, i, r, t1, t2) :: rest, conv, h => by
    have heq : driveConversation conv ((true, i, r, t1, t2) :: rest) =
      driveConversation (send_to_claude_append conv i r t1 t2) rest := rfl
    rw [heq]
    have h2 : alternatesUA (send_to_claude_append conv i r t1 t2) = true :=
      alternatesUA_append conv _ h (pairMsgs_alternates i r t1 t2)
    have hrec := driveConversation_growth rest (send_to_claude_append conv i r t1 t2) h2
    obtain ⟨⟨tl, htl⟩, halt⟩ := hrec
    refine ⟨⟨[Message.mk "user" (Json.str i) (Json.str t1) none,
      Message.mk "assistant" (Json.str r) (Json.str t2) none] ++ tl, ?_⟩, halt⟩
    rw [← htl]
    simp [send_to_claude_append]

/-- Claim C9 as stated is false: a completed, non-interrupted send_to_claude
call on which the subprocess spawn raises returns the error string of line
288 before reaching the appends of lines 360-366, leaving the conversation
unchanged — zero messages appended, not two. -/
theorem conversation_append_counterexample :
    send_to_claude_conv [] false "build X" "[ERROR] Failed to start Claude: boom" "t1" "t2" =
      ([] : List Message) ∧
    ([] : List Message).length ≠ ([] : List Message).length + 2 :=
  ⟨rfl, by decide⟩

/-- Claim C9 (amended): every completed send_to_claude call whose subprocess
spawn succeeds appends exactly two messages to the conversation — first the
sent instruction as a user message, then the returned response as an
assistant message — while a call whose spawn fails returns the error string
having appended nothing; and since no other drive-mode operation writes the
conversation, any sequence of completed calls grows it append-only (the old
conversation stays an unchanged initial segment) in alternating
user/assistant pairs. -/
theorem conversation_append_discipline (conv : List Message)
    (sends : List (Bool × String × String × String × String))
    (i r t1 t2 : String) (h : alternatesUA conv = true) :
    (send_to_claude_conv conv true i r t1 t2).length = conv.length + 2 ∧
    (send_to_claude_conv conv true i r t1 t2).drop conv.length =
      [Message.mk "user" (Json.str i) (Json.str t1) none,
        Message.mk "assistant" (Json.str r) (Json.str t2) none] ∧
    alternatesUA (send_to_claude_conv conv true i r t1 t2) = true ∧
    send_to_claude_conv conv false i r t1 t2 = conv ∧
    (∃ rest0, conv ++ rest0 = driveConversation conv sends) ∧
    alternatesUA (driveConversation conv sends) = true := by
  refine ⟨?_, ?_, alternatesUA_append conv _ h (pairMsgs_alternates i r t1 t2), rfl,
    (driveConversation_growth sends conv h).1, (driveConversation_growth sends conv h).2⟩
  · simp [send_to_claude_conv, send_to_claude_append]
  · show (conv ++ _).drop conv.length = _
    exact List.drop_left conv _

/-- Witness for C9's amended theorem from the empty conversation and a run
with one successful call followed by one spawn-failure call. -/
theorem conversation_append_discipline_witness :
    alternatesUA ([] : List Message) = true ∧
    (send_to_claude_conv [] true "x" "y" "u" "v").length = ([] : List Message).length + 2 ∧
    alternatesUA (driveConversation [] [(true, "a", "b", "t1", "t2"),
      (false, "c", "[ERROR] Failed to start Claude: boom", "t3", "t4")]) = true :=
  ⟨rfl,
    (conversation_append_discipline [] [(true, "a", "b", "t1", "t2"),
      (false, "c", "[ERROR] Failed to start Claude: boom", "t3", "t4")] "x" "y" "u" "v" rfl).1,
    (conversation_append_discipline [] [(true, "a", "b", "t1", "t2"),
      (false, "c", "[ERROR] Failed to start Claude: boom", "t3", "t4")] "x" "y" "u" "v"
      rfl).2.2.2.2.2⟩

/-! Claim C10. -/

/-- Claim C10: in drive mode, only the initial task is sent with
continue_session=False; every loop-issued follow-up instruction carries the
continue flag (first two conjuncts, over arbitrary runs), as do
interactive-mode input sends and chime-ins, while continue_session=False
omits "--continue" from the spawned command and continue_session=True
includes it (remaining conjuncts, at representative argument values). -/
theorem drive_mode_continue_flags (maxTurns fuel : Nat) (task : String)
    (advice : Nat → Option String) :
    (run_drive_mode maxTurns task advice fuel).1.head? = some (task, false) ∧
    (run_drive_mode maxTurns task advice fuel).1.tail.all (fun s => s.2) = true ∧
    (send_to_claude_cmd "claude" "sonnet" "run the tests" true).contains "--continue" = true ∧
    (send_to_claude_cmd "claude" "sonnet" "run the tests" false).contains "--continue" = false ∧
    (send_chime_cmd "claude" "sonnet" "check the edge cases").contains "--continue" = true ∧
    (interactive_send_cmd "claude" "sonnet" "fix the bug").contains "--continue" = true := by
  refine ⟨rfl, ?_, by decide, by decide, by decide, by decide⟩
  show ((drive_loop maxTurns advice fuel 0).1.map (fun s => (s, true))).all (fun s => s.2) = true
  simp

end LetThemCookSpec
